import Mathlib

/-! Temlett Physiotherapy: verification of `script.js`.

A shallow embedding of the five behaviour modules of `src/script.js`
(mobile navigation, FAQ accordion, anchor scrolling, contact form, header
scroll state) together with the theorems about their specified behaviour.

Conventions of the embedding:

* a JavaScript string is a list of characters; the only characters the script
  inspects (`@`, `.` and white space) lie in the Basic Multilingual Plane, and
  a supplementary character is two code units that both belong to `[^\s@]`,
  so matching on characters agrees with matching on UTF-16 code units;
* a DOM lookup that may yield `null` is an `Option`; using `null` where an
  object is needed is the error `JSError.typeError`;
* an event handler is a function from the state it reads to the state it
  leaves behind; browser primitives (`contains`, `focus`, `querySelector`,
  `getBoundingClientRect`) are taken as data of the state or of the event.
-/

namespace Temlett

/-! ## JavaScript values -/

/-- A JavaScript string, as the list of its characters. -/
abbrev JSString := List Char

/-- Errors a handler can raise. -/
inductive JSError where
  | typeError
  | syntaxError
  deriving DecidableEq, Repr

/-- The characters matched by `\s` in a regular expression and removed by
`String.prototype.trim`: the ECMAScript WhiteSpace and LineTerminator
code points (TAB, LF, VT, FF, CR, SP, NBSP, U+1680, U+2000..U+200A, LS, PS,
U+202F, U+205F, U+3000, U+FEFF). -/
def isWhiteSpace (c : Char) : Bool :=
  let n := c.toNat
  (9 ≤ n && n ≤ 13) || n == 32 || n == 160 || n == 5760 ||
  (8192 ≤ n && n ≤ 8202) || n == 8232 || n == 8233 || n == 8239 ||
  n == 8287 || n == 12288 || n == 65279

/-- `String.prototype.trim`: white space is dropped at both ends. -/
def trim (s : JSString) : JSString :=
  ((s.dropWhile isWhiteSpace).reverse.dropWhile isWhiteSpace).reverse

/-- Truthiness of a string: only the empty string is falsy, so `!s` is
`isFalsy s`. -/
def isFalsy (s : JSString) : Bool := s.isEmpty

/-- `String(b)` for a boolean, as done by `setAttribute(name, b)`. -/
def boolToString (b : Bool) : String := if b then "true" else "false"

/-! ## `DOMTokenList` (the `classList` of an element) -/

/-- `classList.contains(t)`. -/
def classContains (cl : List String) (t : String) : Bool := cl.contains t

/-- `classList.add(t)`: the token is appended unless already present. -/
def classAdd (cl : List String) (t : String) : List String :=
  if cl.contains t then cl else cl ++ [t]

/-- `classList.remove(t)`. -/
def classRemove (cl : List String) (t : String) : List String :=
  cl.filter (fun x => x != t)

/-- `classList.toggle(t, force)`: adds when `force`, removes otherwise. -/
def classToggle (cl : List String) (t : String) (force : Bool) : List String :=
  if force then classAdd cl t else classRemove cl t

/-! ## Regular expressions of the shape used by the contact form -/

/-- A single-character matcher: a literal character, or a negated class
`[^\s…]` listing the excluded characters besides white space. -/
inductive Atom where
  | lit (c : Char)
  | notSpaceNor (excluded : List Char)

/-- Whether a character is matched by an atom. -/
def Atom.test : Atom → Char → Bool
  | .lit c, x => x == c
  | .notSpaceNor ex, x => !isWhiteSpace x && !ex.contains x

/-- One term of a pattern: an atom, or an atom under the greedy `+`. -/
inductive Node where
  | one (a : Atom)
  | plus (a : Atom)

/-- Backtracking match of a sequence of nodes against the whole remaining
input; the empty sequence is the assertion `$`.  A `+` node consumes one
character and then first tries to go on consuming (greedy), falling back
to the rest of the pattern. -/
def matchNodes : List Node → JSString → Bool
  | [], s => s.isEmpty
  | _ :: _, [] => false
  | .one a :: rest, c :: s => a.test c && matchNodes rest s
  | .plus a :: rest, c :: s =>
      a.test c && (matchNodes (.plus a :: rest) s || matchNodes rest s)

/-- `RegExp.prototype.test` for a pattern written `/^…$/` without flags. -/
def regexTest (pattern : List Node) (s : JSString) : Bool := matchNodes pattern s

/-- The literal `/^[^\s@]+@[^\s@]+\.[^\s@]+$/` of `initContactForm`. -/
def emailPattern : List Node :=
  [.plus (.notSpaceNor ['@']), .one (.lit '@'),
   .plus (.notSpaceNor ['@']), .one (.lit '.'),
   .plus (.notSpaceNor ['@'])]

/-! ## Contact form -/

/-- A form control: its current value and the default `reset()` restores. -/
structure Field where
  value : JSString
  defaultValue : JSString
  deriving DecidableEq

/-- The contact form: the results of `querySelector` for `#name`, `#email`
and `#message` inside it. -/
structure ContactForm where
  name : Option Field
  email : Option Field
  message : Option Field
  deriving DecidableEq

/-- `HTMLFormElement.reset()`. -/
def ContactForm.reset (f : ContactForm) : ContactForm :=
  let r := fun (x : Field) => { x with value := x.defaultValue }
  { name := f.name.map r, email := f.email.map r, message := f.message.map r }

/-- Reading `.value` off the result of `querySelector`. -/
def fieldValue : Option Field → Except JSError JSString
  | none => .error .typeError
  | some x => .ok x.value

def fillAllFieldsNotice : String := "Please fill in all fields."

def invalidEmailNotice : String := "Please enter a valid email address."

def demoNotice : String :=
  "Thank you for your message. This form is for demonstration purposes only. Please contact us via WhatsApp or email for enquiries."

/-- What a run of the submit handler leaves behind. -/
structure SubmitOutcome where
  defaultPrevented : Bool
  alerts : List String
  resetCalled : Bool
  form : ContactForm
  thrown : Option JSError
  deriving DecidableEq

/-- The condition `!name.value.trim() || !email.value.trim() ||
!message.value.trim()`, evaluated left to right with short circuit. -/
def anyFieldBlank (f : ContactForm) : Except JSError Bool := do
  if isFalsy (trim (← fieldValue f.name)) then return true
  if isFalsy (trim (← fieldValue f.email)) then return true
  return isFalsy (trim (← fieldValue f.message))

/-- The `submit` listener of `initContactForm`. -/
def submitHandler (f : ContactForm) : SubmitOutcome :=
  -- event.preventDefault() comes first
  match anyFieldBlank f with
  | .error e =>
      { defaultPrevented := true, alerts := [], resetCalled := false, form := f, thrown := some e }
  | .ok true =>
      { defaultPrevented := true, alerts := [fillAllFieldsNotice], resetCalled := false,
        form := f, thrown := none }
  | .ok false =>
      match fieldValue f.email with
      | .error e =>
          { defaultPrevented := true, alerts := [], resetCalled := false, form := f,
            thrown := some e }
      | .ok v =>
          if !regexTest emailPattern v then
            { defaultPrevented := true, alerts := [invalidEmailNotice], resetCalled := false,
              form := f, thrown := none }
          else
            { defaultPrevented := true, alerts := [demoNotice], resetCalled := true,
              form := f.reset, thrown := none }

/-- A form whose three controls exist, with the given values and defaults. -/
def formOf (name email message dn de dm : JSString) : ContactForm :=
  { name := some ⟨name, dn⟩, email := some ⟨email, de⟩, message := some ⟨message, dm⟩ }

/-! ## Mobile navigation -/

/-- The element holding keyboard focus (`document.activeElement`), as far as
the navigation handlers are concerned. -/
inductive Focus where
  | navToggle
  | elsewhere (tag : Nat)
  deriving DecidableEq, Repr

/-- The state the navigation handlers read and write: the `aria-expanded`
attribute of `#nav-toggle` (`none` when absent), the class list of `#nav`,
and the focused element. -/
structure NavState where
  ariaExpanded : Option String
  navClasses : List String
  focus : Focus
  deriving DecidableEq

/-- What the document-level click handler asks of `event.target`:
`nav.contains(event.target)` and `navToggle.contains(event.target)`. -/
structure ClickTarget where
  insideNav : Bool
  insideToggle : Bool
  deriving DecidableEq

/-- The `click` listener on `#nav-toggle`. -/
def toggleClickHandler (s : NavState) : NavState :=
  let isOpen := s.ariaExpanded == some "true"
  { s with
    ariaExpanded := some (boolToString (!isOpen))
    navClasses := classToggle s.navClasses "is-open" (!isOpen) }

/-- The `click` listener on each `.nav-link`. -/
def navLinkClickHandler (s : NavState) : NavState :=
  { s with ariaExpanded := some "false", navClasses := classRemove s.navClasses "is-open" }

/-- The `click` listener on `document` (outside click). -/
def outsideClickHandler (s : NavState) (t : ClickTarget) : NavState :=
  let isNavOpen := classContains s.navClasses "is-open"
  let clickedInsideNav := t.insideNav
  let clickedNavToggle := t.insideToggle
  if isNavOpen && !clickedInsideNav && !clickedNavToggle then
    { s with ariaExpanded := some "false", navClasses := classRemove s.navClasses "is-open" }
  else s

/-- The method `element.focus()`: the focus moves to the element when the
element is focusable; on an element that is not (a `div` without `tabindex`, a
control that is disabled or not rendered) the call does nothing. -/
def focusMethod (focusable : Bool) (element current : Focus) : Focus :=
  if focusable then element else current

/-- The `keydown` listener on `document`; `toggleFocusable` tells whether
`#nav-toggle` is focusable when `navToggle.focus()` is called. -/
def escapeKeyHandler (toggleFocusable : Bool) (s : NavState) (key : String) : NavState :=
  if key == "Escape" && classContains s.navClasses "is-open" then
    { ariaExpanded := some "false"
      navClasses := classRemove s.navClasses "is-open"
      focus := focusMethod toggleFocusable .navToggle s.focus }
  else s

/-- One click on the toggle control: the event reaches the listener on
`#nav-toggle` first and then bubbles to the listener on `document`. -/
def clickOnToggle (t : ClickTarget) (s : NavState) : NavState :=
  outsideClickHandler (toggleClickHandler s) t

/-- The state after `n` consecutive clicks on the toggle control. -/
def toggleClicks (t : ClickTarget) : Nat → NavState → NavState
  | 0, s => s
  | n + 1, s => clickOnToggle t (toggleClicks t n s)

/-! ## FAQ accordion -/

/-- The part of a DOM element the click and keydown listeners of the
accordion and of the navigation read and write: its id (`none` when it has no
non-empty id), its class list, its `aria-expanded` and `aria-controls`
attributes, its `hidden` property, and whether it is a disabled form control.
History, scroll position, focus and the `tabindex` attribute, which only the
anchor listener writes, are not part of it. -/
structure Element where
  id : Option String
  classes : List String
  ariaExpanded : Option String
  ariaControls : Option String
  hidden : Bool
  disabled : Bool
  deriving DecidableEq

/-- The document, as the list of its elements in tree order; an element is
referred to by its position. -/
abbrev Dom := List Element

/-- Conversion of the argument of `getElementById` to a string: the `null`
that `getAttribute` returns for an absent attribute becomes `"null"`. -/
def toDOMString : Option String → String
  | none => "null"
  | some s => s

/-- `document.getElementById`: the position of the first element with the
given id. -/
def getElementById (d : Dom) (key : String) : Option Nat :=
  let i := d.findIdx (fun e => e.id == some key)
  if i < d.length then some i else none

/-- Replace the element at a position by its image under `f`. -/
def updateAt (f : Element → Element) : Nat → Dom → Dom
  | _, [] => []
  | 0, e :: es => f e :: es
  | n + 1, e :: es => e :: updateAt f n es

/-- The `click` listener on the `.faq-question` at position `q`. -/
def faqClickHandler (d : Dom) (q : Nat) : Dom :=
  match d[q]? with
  | none => d
  | some question =>
      let isExpanded := question.ariaExpanded == some "true"
      let answerId := question.ariaControls
      match getElementById d (toDOMString answerId) with
      | none => d
      | some answer =>
          let d1 := updateAt (fun e => { e with ariaExpanded := some (boolToString (!isExpanded)) }) q d
          updateAt (fun e => { e with hidden := isExpanded }) answer d1

/-- The positions of the elements held by the constants `navToggle` and `nav`
of the script (lines 12 and 13). -/
structure NavRefs where
  toggle : Nat
  nav : Nat
  deriving DecidableEq

/-- The state of the navigation as read off the document.  The three click
listeners of the navigation never call `focus()`, so the focus handed to them
is a placeholder that is dropped afterwards. -/
def navStateOf (refs : NavRefs) (d : Dom) : Option NavState :=
  match d[refs.toggle]?, d[refs.nav]? with
  | some t, some n =>
      some { ariaExpanded := t.ariaExpanded, navClasses := n.classes, focus := .elsewhere 0 }
  | _, _ => none

/-- Writing `aria-expanded` of the toggle and the class list of the nav back
to the document. -/
def writeNav (refs : NavRefs) (s : NavState) (d : Dom) : Dom :=
  updateAt (fun e => { e with classes := s.navClasses }) refs.nav
    (updateAt (fun e => { e with ariaExpanded := s.ariaExpanded }) refs.toggle d)

/-- A click listener of the navigation, run on the document. -/
def liftNav (refs : NavRefs) (f : NavState → NavState) (d : Dom) : Dom :=
  match navStateOf refs d with
  | some s => writeNav refs (f s) d
  | none => d

/-- The click listeners the script registers: on `#nav-toggle`, on a
`.nav-link`, on the `.faq-question` at a position, on an `a[href^="#"]`, and on
`document` (with what `contains` answers for the target of the event). -/
inductive ClickListener where
  | toggleClick
  | navLinkClick
  | faqClick (q : Nat)
  | anchorClick (href : String)
  | outsideClick (t : ClickTarget)
  deriving DecidableEq

/-- One click listener run on the document.  The anchor listener writes none
of the attributes a `Dom` holds. -/
def runClickListener (refs : NavRefs) (d : Dom) : ClickListener → Dom
  | .toggleClick => liftNav refs toggleClickHandler d
  | .navLinkClick => liftNav refs navLinkClickHandler d
  | .faqClick q => faqClickHandler d q
  | .anchorClick _ => d
  | .outsideClick t => liftNav refs (fun s => outsideClickHandler s t) d

/-- The dispatch of a click event: the listeners on its propagation path (the
target, its ancestors, `document`) run one after the other. -/
def dispatchClick (refs : NavRefs) (d : Dom) (path : List ClickListener) : Dom :=
  path.foldl (runClickListener refs) d

/-- The method `element.click()` on the element at position `q`: nothing
happens on a disabled form control; otherwise a click event is dispatched at
the element, synchronously, and bubbles. -/
def clickMethod (refs : NavRefs) (d : Dom) (q : Nat) (path : List ClickListener) : Dom :=
  match d[q]? with
  | none => d
  | some e => if e.disabled then d else dispatchClick refs d path

/-- What a run of the accordion `keydown` listener leaves behind. -/
structure KeyOutcome where
  defaultPrevented : Bool
  dom : Dom
  deriving DecidableEq

/-- The `keydown` listener on the `.faq-question` at position `q`.  The click
that `question.click()` dispatches runs the click listener of that question,
registered next to this listener, and the other click listeners of the script
on the propagation path: `before` are those that run earlier (registered on
the question by `initMobileNav`), `after` those that run later (an anchor
listener on the question, the listeners on its ancestors, and last the
listener on `document` when `initMobileNav` registered it). -/
def faqKeydownHandler (refs : NavRefs) (d : Dom) (q : Nat) (key : String)
    (before after : List ClickListener) : KeyOutcome :=
  if key == "Enter" || key == " " then
    { defaultPrevented := true
      dom := clickMethod refs d q (before ++ .faqClick q :: after) }
  else
    { defaultPrevented := false, dom := d }

/-! ## Anchor scrolling -/

/-- The session history: its entries (the URL fragment of each) and the
position of the current one. -/
structure History where
  entries : List String
  index : Nat
  deriving DecidableEq

/-- `history.pushState(null, null, url)`: the entries after the current one
are dropped, a new entry is appended and becomes current. -/
def History.pushState (h : History) (url : String) : History :=
  { entries := h.entries.take (h.index + 1) ++ [url], index := h.index + 1 }

/-- `history.replaceState(null, null, url)`, which the script does not call;
kept for comparison. -/
def History.replaceState (h : History) (url : String) : History :=
  { h with entries := h.entries.set h.index url }

/-- An element found by `document.querySelector`, with the `top` of its
`getBoundingClientRect()`. -/
structure TargetElement (N : Type) where
  ref : Nat
  top : N

/-- What the anchor handler reads: `document.querySelector` (which raises a
`SyntaxError` on an invalid selector), the `offsetHeight` of `#header`
(`none` when there is no such element) and `window.pageYOffset`.  Numbers
are kept abstract in `N`: the handler only adds and subtracts them. -/
structure AnchorEnv (N : Type) where
  querySelector : String → Except JSError (Option (TargetElement N))
  headerOffsetHeight : Option N
  pageYOffset : N

/-- The browser state the anchor handler writes. -/
structure BrowserState where
  history : History
  activeElement : Option Nat
  deriving DecidableEq

/-- The argument of `window.scrollTo`. -/
structure ScrollToOptions (N : Type) where
  top : N
  behavior : String

/-- What a run of the anchor click handler leaves behind. -/
structure AnchorOutcome (N : Type) where
  defaultPrevented : Bool
  scrollRequests : List (ScrollToOptions N)
  attributeWrites : List (Nat × String × String)
  state : BrowserState
  thrown : Option JSError

/-- The `click` listener on an `a[href^="#"]` whose `href` attribute is
`targetId`. -/
def anchorClickHandler {N : Type} [Add N] [Sub N] [Zero N]
    (env : AnchorEnv N) (st : BrowserState) (targetId : String) : AnchorOutcome N :=
  let untouched : AnchorOutcome N :=
    { defaultPrevented := false, scrollRequests := [], attributeWrites := [], state := st,
      thrown := none }
  if targetId == "#" then untouched
  else
    match env.querySelector targetId with
    | .error e => { untouched with thrown := some e }
    | .ok none => untouched
    | .ok (some targetElement) =>
        let headerHeight : N :=
          match env.headerOffsetHeight with
          | some h => h
          | none => 0
        let targetPosition := targetElement.top + env.pageYOffset - headerHeight
        { defaultPrevented := true
          scrollRequests := [{ top := targetPosition, behavior := "smooth" }]
          attributeWrites := [(targetElement.ref, "tabindex", "-1")]
          state :=
            { history := st.history.pushState targetId
              activeElement := some targetElement.ref }
          thrown := none }

/-! ## Header scroll state -/

/-- The function `updateHeaderState` of `initHeaderScroll`, on the class
list of `#header`, for the value of `window.scrollY` it reads. -/
def updateHeaderState (scrollY : ℚ) (headerClasses : List String) : List String :=
  if scrollY > 50 then classAdd headerClasses "scrolled"
  else classRemove headerClasses "scrolled"

/-- The class list of `#header` after the evaluation at registration time at
offset `y0` followed by one scroll event at each offset of `ys`. -/
def headerAfter (y0 : ℚ) (ys : List ℚ) (headerClasses : List String) : List String :=
  ys.foldl (fun cl y => updateHeaderState y cl) (updateHeaderState y0 headerClasses)

/-! ## Initialisation -/

/-- An object a listener is registered on. -/
inductive Target where
  | element (id : String)
  | navLink (i : Nat)
  | faqQuestion (i : Nat)
  | anchor (i : Nat)
  | document
  | window
  deriving DecidableEq, Repr

/-- The listener functions of the script. -/
inductive HandlerName where
  | toggleClick
  | navLinkClick
  | outsideClick
  | escapeKey
  | faqClick
  | faqKeydown
  | anchorClick
  | formSubmit
  | headerScroll
  deriving DecidableEq, Repr

/-- One call of `addEventListener`. -/
structure Listener where
  target : Target
  type : String
  handler : HandlerName
  deriving DecidableEq, Repr

/-- The document at start-up, as far as the setup functions look at it: the
ids present in the document, the number of `.nav-link`, `.faq-question` and
`a[href^="#"]` elements, the ids present inside the contact form, the class
list of `#header` and `window.scrollY`. -/
structure Page where
  ids : List String
  navLinks : Nat
  faqQuestions : Nat
  anchors : Nat
  formFieldIds : List String
  headerClasses : List String
  scrollY : ℚ

/-- The lookup `document.getElementById` at start-up. -/
def Page.getElementById (p : Page) (id : String) : Option Target :=
  if p.ids.contains id then some (.element id) else none

/-- The call `target.addEventListener(type, handler)`; it is a `TypeError`
when `target` is `null`. -/
def addEventListener (target : Option Target) (type : String) (handler : HandlerName) :
    Except JSError Listener :=
  match target with
  | none => .error .typeError
  | some t => .ok { target := t, type := type, handler := handler }

/-- The setup function `initMobileNav`. -/
def initMobileNav (p : Page) : Except JSError (Page × List Listener) :=
  let navToggle := p.getElementById "nav-toggle"
  let nav := p.getElementById "nav"
  if navToggle.isNone || nav.isNone then pure (p, [])
  else do
    let l1 ← addEventListener navToggle "click" .toggleClick
    let links ← (List.range p.navLinks).mapM
      (fun i => addEventListener (some (.navLink i)) "click" .navLinkClick)
    let l2 ← addEventListener (some .document) "click" .outsideClick
    let l3 ← addEventListener (some .document) "keydown" .escapeKey
    pure (p, l1 :: links ++ [l2, l3])

/-- The setup function `initFaqAccordion`. -/
def initFaqAccordion (p : Page) : Except JSError (Page × List Listener) :=
  if p.faqQuestions == 0 then pure (p, [])
  else do
    let ls ← (List.range p.faqQuestions).mapM (fun i => do
      let a ← addEventListener (some (.faqQuestion i)) "click" .faqClick
      let b ← addEventListener (some (.faqQuestion i)) "keydown" .faqKeydown
      pure [a, b])
    pure (p, ls.flatten)

/-- The setup function `initSmoothScroll`. -/
def initSmoothScroll (p : Page) : Except JSError (Page × List Listener) := do
  let ls ← (List.range p.anchors).mapM
    (fun i => addEventListener (some (.anchor i)) "click" .anchorClick)
  pure (p, ls)

/-- The setup function `initContactForm`. -/
def initContactForm (p : Page) : Except JSError (Page × List Listener) :=
  let contactForm := p.getElementById "contact-form"
  if contactForm.isNone then pure (p, [])
  else do
    let l ← addEventListener contactForm "submit" .formSubmit
    pure (p, [l])

/-- The setup function `initHeaderScroll`. -/
def initHeaderScroll (p : Page) : Except JSError (Page × List Listener) :=
  let header := p.getElementById "header"
  if header.isNone then pure (p, [])
  else do
    let p1 := { p with headerClasses := updateHeaderState p.scrollY p.headerClasses }
    let l ← addEventListener (some .window) "scroll" .headerScroll
    pure (p1, [l])

/-- The function `init`: the five setup functions in order; an error raised
by one of them would end the run. -/
def init (p : Page) : Except JSError (Page × List Listener) := do
  let (p1, l1) ← initMobileNav p
  let (p2, l2) ← initFaqAccordion p1
  let (p3, l3) ← initSmoothScroll p2
  let (p4, l4) ← initContactForm p3
  let (p5, l5) ← initHeaderScroll p4
  pure (p5, l1 ++ l2 ++ l3 ++ l4 ++ l5)

/-! ## Sample documents for the accordion -/

/-- Two questions whose `aria-controls` both name the element `a1`, which is
hidden. -/
def sharedAnswerDom : Dom :=
  [⟨some "q1", ["faq-question"], some "false", some "a1", false, false⟩,
   ⟨some "q2", ["faq-question"], some "false", some "a1", false, false⟩,
   ⟨some "a1", ["faq-answer"], none, none, true, false⟩]

/-- An open menu (`#nav-toggle` at position 0, `#nav` at position 1) and, outside
of it, a question whose `aria-controls` names no element of the document. -/
def openMenuDom : Dom :=
  [⟨some "nav-toggle", [], some "true", none, false, false⟩,
   ⟨some "nav", ["nav", "is-open"], none, none, false, false⟩,
   ⟨some "q1", ["faq-question"], some "false", some "missing", false, false⟩]

/-- Two pairs, each question with an answer of its own. -/
def twoPairsDom : Dom :=
  [⟨some "q1", ["faq-question"], some "false", some "a1", false, false⟩,
   ⟨some "a1", ["faq-answer"], none, none, true, false⟩,
   ⟨some "q2", ["faq-question"], some "true", some "a2", false, false⟩,
   ⟨some "a2", ["faq-answer"], none, none, false, false⟩]

/-! ## A sample page for anchor scrolling -/

/-- A page whose only selector with a match is `#about`: that element is
element number 1, 400 pixels below the top of the viewport; the header is 80
pixels high and the page is scrolled by 100 pixels. -/
def sampleAnchorEnv : AnchorEnv ℤ :=
  { querySelector := fun sel => if sel == "#about" then .ok (some ⟨1, 400⟩) else .ok none
    headerOffsetHeight := some 80
    pageYOffset := 100 }

/-- A session history with a single entry (no fragment), nothing focused. -/
def sampleBrowserState : BrowserState :=
  { history := { entries := [""], index := 0 }, activeElement := none }

/-! ## Shapes of accepted e-mail values -/

/-- A character that is neither white space nor `@`. -/
def NotSpaceNorAt (x : Char) : Prop := isWhiteSpace x = false ∧ x ≠ '@'

/-- The shape the regular expression literal of the code describes: three
non-empty runs of characters that are neither white space nor `@`, the first
two separated by `@` and the last two by a dot. -/
def CodeEmailShape (e : JSString) : Prop :=
  ∃ a b c : JSString, e = a ++ '@' :: (b ++ '.' :: c) ∧ a ≠ [] ∧ b ≠ [] ∧ c ≠ [] ∧
    (∀ x ∈ a, NotSpaceNorAt x) ∧ (∀ x ∈ b, NotSpaceNorAt x) ∧ (∀ x ∈ c, NotSpaceNorAt x)

/-- The shape as the specification words it: the final run is only required
to be free of white space. -/
def SpecEmailShape (e : JSString) : Prop :=
  ∃ a b c : JSString, e = a ++ '@' :: (b ++ '.' :: c) ∧ a ≠ [] ∧ b ≠ [] ∧ c ≠ [] ∧
    (∀ x ∈ a, NotSpaceNorAt x) ∧ (∀ x ∈ b, NotSpaceNorAt x) ∧
    (∀ x ∈ c, isWhiteSpace x = false)

/-! ## Theorems: regular expression matching -/

theorem atom_notSpaceNorAt_test (x : Char) :
    (Atom.notSpaceNor ['@']).test x = true ↔ NotSpaceNorAt x := by
  simp [Atom.test, NotSpaceNorAt]

theorem matchNodes_one (a : Atom) (rest : List Node) (s : JSString) :
    matchNodes (.one a :: rest) s = true ↔
      ∃ c suf, s = c :: suf ∧ a.test c = true ∧ matchNodes rest suf = true := by
  cases s with
  | nil => simp [matchNodes]
  | cons c s =>
      simp only [matchNodes, Bool.and_eq_true, List.cons.injEq]
      constructor
      · rintro ⟨h1, h2⟩
        exact ⟨c, s, ⟨rfl, rfl⟩, h1, h2⟩
      · rintro ⟨c0, suf, ⟨rfl, rfl⟩, h1, h2⟩
        exact ⟨h1, h2⟩

theorem matchNodes_plus (a : Atom) (rest : List Node) (s : JSString) :
    matchNodes (.plus a :: rest) s = true ↔
      ∃ pre suf, s = pre ++ suf ∧ pre ≠ [] ∧ (∀ x ∈ pre, a.test x = true) ∧
        matchNodes rest suf = true := by
  induction s with
  | nil =>
      simp only [matchNodes, Bool.false_eq_true, false_iff]
      rintro ⟨pre, suf, h, hne, -⟩
      cases pre with
      | nil => exact hne rfl
      | cons _ _ => simp at h
  | cons c s ih =>
      simp only [matchNodes, Bool.and_eq_true, Bool.or_eq_true]
      constructor
      · rintro ⟨hc, h | h⟩
        · obtain ⟨pre, suf, rfl, -, hall, hm⟩ := ih.mp h
          refine ⟨c :: pre, suf, rfl, by simp, ?_, hm⟩
          intro x hx
          rcases List.mem_cons.mp hx with rfl | hx
          · exact hc
          · exact hall x hx
        · refine ⟨[c], s, rfl, by simp, ?_, h⟩
          intro x hx
          rw [List.mem_singleton.mp hx]
          exact hc
      · rintro ⟨pre, suf, h, hne, hall, hm⟩
        cases pre with
        | nil => exact absurd rfl hne
        | cons c0 pre0 =>
            simp only [List.cons_append, List.cons.injEq] at h
            obtain ⟨rfl, rfl⟩ := h
            refine ⟨hall c (List.mem_cons_self _ _), ?_⟩
            cases pre0 with
            | nil => right; simpa using hm
            | cons c1 pre1 =>
                left
                exact ih.mpr ⟨c1 :: pre1, suf, rfl, by simp,
                  fun x hx => hall x (List.mem_cons_of_mem _ hx), hm⟩

theorem matchNodes_plus_last (a : Atom) (s : JSString) :
    matchNodes [.plus a] s = true ↔ s ≠ [] ∧ ∀ x ∈ s, a.test x = true := by
  rw [matchNodes_plus]
  constructor
  · rintro ⟨pre, suf, rfl, hne, hall, hm⟩
    cases suf with
    | nil => simpa using ⟨hne, hall⟩
    | cons _ _ => simp [matchNodes] at hm
  · rintro ⟨hne, hall⟩
    exact ⟨s, [], by simp, hne, hall, by simp [matchNodes]⟩

/-- The match of the e-mail literal is exactly the shape `CodeEmailShape`. -/
theorem regexTest_emailPattern_iff (e : JSString) :
    regexTest emailPattern e = true ↔ CodeEmailShape e := by
  unfold regexTest emailPattern CodeEmailShape
  constructor
  · intro h
    obtain ⟨a, r1, rfl, ha, hA, h⟩ := (matchNodes_plus _ _ _).mp h
    obtain ⟨c1, r2, rfl, hc1, h⟩ := (matchNodes_one _ _ _).mp h
    obtain ⟨b, r3, rfl, hb, hB, h⟩ := (matchNodes_plus _ _ _).mp h
    obtain ⟨c2, r4, rfl, hc2, h⟩ := (matchNodes_one _ _ _).mp h
    obtain ⟨hc, hC⟩ := (matchNodes_plus_last _ _).mp h
    have e1 : c1 = '@' := by simpa [Atom.test] using hc1
    have e2 : c2 = '.' := by simpa [Atom.test] using hc2
    subst e1 e2
    exact ⟨a, b, r4, rfl, ha, hb, hc,
      fun x hx => (atom_notSpaceNorAt_test x).mp (hA x hx),
      fun x hx => (atom_notSpaceNorAt_test x).mp (hB x hx),
      fun x hx => (atom_notSpaceNorAt_test x).mp (hC x hx)⟩
  · rintro ⟨a, b, c, rfl, ha, hb, hc, hA, hB, hC⟩
    refine (matchNodes_plus _ _ _).mpr ⟨a, _, rfl, ha,
      fun x hx => (atom_notSpaceNorAt_test x).mpr (hA x hx), ?_⟩
    refine (matchNodes_one _ _ _).mpr ⟨'@', _, rfl, by simp [Atom.test], ?_⟩
    refine (matchNodes_plus _ _ _).mpr ⟨b, _, rfl, hb,
      fun x hx => (atom_notSpaceNorAt_test x).mpr (hB x hx), ?_⟩
    refine (matchNodes_one _ _ _).mpr ⟨'.', _, rfl, by simp [Atom.test], ?_⟩
    exact (matchNodes_plus_last _ _).mpr
      ⟨hc, fun x hx => (atom_notSpaceNorAt_test x).mpr (hC x hx)⟩

/-! ## Theorems: trimming -/

theorem dropWhile_isWhiteSpace_eq_nil_iff (s : JSString) :
    s.dropWhile isWhiteSpace = [] ↔ ∀ x ∈ s, isWhiteSpace x = true := by
  induction s with
  | nil => simp
  | cons c s ih =>
      by_cases hc : isWhiteSpace c = true
      · simp [List.dropWhile_cons, hc, ih]
      · simp [List.dropWhile_cons, hc]

/-- A value is empty after trimming exactly when it consists of white space
only. -/
theorem trim_eq_nil_iff (s : JSString) :
    trim s = [] ↔ ∀ x ∈ s, isWhiteSpace x = true := by
  unfold trim
  rw [List.reverse_eq_nil_iff, dropWhile_isWhiteSpace_eq_nil_iff]
  constructor
  · intro h
    rw [← dropWhile_isWhiteSpace_eq_nil_iff]
    cases hd : s.dropWhile isWhiteSpace with
    | nil => rfl
    | cons c r =>
        have h1 : isWhiteSpace c = true := h c (by simp [hd])
        have h2 := List.head_dropWhile_not isWhiteSpace s (by simp [hd])
        simp [hd, h1] at h2
  · intro h x hx
    exact h x ((List.dropWhile_sublist _).subset (List.mem_reverse.mp hx))

/-! ## Theorems: contact form -/

theorem anyFieldBlank_formOf (n e m dn de dm : JSString) :
    anyFieldBlank (formOf n e m dn de dm) =
      .ok (decide (trim n = [] ∨ trim e = [] ∨ trim m = [])) := by
  by_cases h1 : trim n = [] <;> by_cases h2 : trim e = [] <;> by_cases h3 : trim m = [] <;>
    simp [anyFieldBlank, formOf, fieldValue, isFalsy, h1, h2, h3, bind, Except.bind, pure,
      Except.pure]

/-- C1: on a form whose three controls exist, the submit handler always
prevents the default submission, raises no error and shows exactly one notice:
the fill-all-fields notice without reset when a value is empty after trimming;
otherwise the invalid-email notice without reset when the email value fails the
pattern; otherwise the demo notice followed by a reset.  The three sample
submissions of the specification land in outcomes 1, 2 and 3. -/
theorem submitHandler_outcome (n e m dn de dm : JSString) :
    (submitHandler (formOf n e m dn de dm)).defaultPrevented = true ∧
    (submitHandler (formOf n e m dn de dm)).thrown = none ∧
    (submitHandler (formOf n e m dn de dm)).alerts.length = 1 ∧
    ((trim n = [] ∨ trim e = [] ∨ trim m = []) →
      (submitHandler (formOf n e m dn de dm)).alerts = [fillAllFieldsNotice] ∧
      (submitHandler (formOf n e m dn de dm)).resetCalled = false ∧
      (submitHandler (formOf n e m dn de dm)).form = formOf n e m dn de dm) ∧
    (¬ (trim n = [] ∨ trim e = [] ∨ trim m = []) → regexTest emailPattern e = false →
      (submitHandler (formOf n e m dn de dm)).alerts = [invalidEmailNotice] ∧
      (submitHandler (formOf n e m dn de dm)).resetCalled = false ∧
      (submitHandler (formOf n e m dn de dm)).form = formOf n e m dn de dm) ∧
    (¬ (trim n = [] ∨ trim e = [] ∨ trim m = []) → regexTest emailPattern e = true →
      (submitHandler (formOf n e m dn de dm)).alerts = [demoNotice] ∧
      (submitHandler (formOf n e m dn de dm)).resetCalled = true ∧
      (submitHandler (formOf n e m dn de dm)).form = formOf dn de dm dn de dm) ∧
    (submitHandler (formOf [] e m dn de dm)).alerts = [fillAllFieldsNotice] ∧
    (submitHandler (formOf [] e m dn de dm)).resetCalled = false ∧
    (submitHandler (formOf "A".toList "not-an-email".toList "hi".toList dn de dm)).alerts
      = [invalidEmailNotice] ∧
    (submitHandler (formOf "A".toList "a@b.co".toList "hi".toList dn de dm)).alerts
      = [demoNotice] ∧
    (submitHandler (formOf "A".toList "a@b.co".toList "hi".toList dn de dm)).resetCalled
      = true := by
  have key : ∀ n e m : JSString,
      submitHandler (formOf n e m dn de dm) =
        if trim n = [] ∨ trim e = [] ∨ trim m = [] then
          { defaultPrevented := true, alerts := [fillAllFieldsNotice], resetCalled := false,
            form := formOf n e m dn de dm, thrown := none }
        else if regexTest emailPattern e = false then
          { defaultPrevented := true, alerts := [invalidEmailNotice], resetCalled := false,
            form := formOf n e m dn de dm, thrown := none }
        else
          { defaultPrevented := true, alerts := [demoNotice], resetCalled := true,
            form := formOf dn de dm dn de dm, thrown := none } := by
    intro n e m
    unfold submitHandler
    rw [anyFieldBlank_formOf]
    by_cases hb : trim n = [] ∨ trim e = [] ∨ trim m = []
    · simp [hb]
    · cases ht : regexTest emailPattern e <;>
        simp [hb, ht, formOf, fieldValue, ContactForm.reset]
  have r1 : regexTest emailPattern "not-an-email".toList = false := by decide
  have r2 : regexTest emailPattern "a@b.co".toList = true := by decide
  have nb1 : ¬ (trim "A".toList = [] ∨ trim "not-an-email".toList = [] ∨ trim "hi".toList = []) := by
    decide
  have nb2 : ¬ (trim "A".toList = [] ∨ trim "a@b.co".toList = [] ∨ trim "hi".toList = []) := by
    decide
  have e0 : trim ([] : JSString) = [] := by decide
  refine ⟨?_, ?_, ?_, ?_, ?_, ?_, ?_, ?_, ?_, ?_, ?_⟩
  · rw [key]; split_ifs <;> rfl
  · rw [key]; split_ifs <;> rfl
  · rw [key]; split_ifs <;> rfl
  · intro hb; rw [key, if_pos hb]; exact ⟨rfl, rfl, rfl⟩
  · intro hb ht; rw [key, if_neg hb, if_pos ht]; exact ⟨rfl, rfl, rfl⟩
  · intro hb ht
    rw [key, if_neg hb, if_neg (by simp [ht])]; exact ⟨rfl, rfl, rfl⟩
  · rw [key, if_pos (Or.inl e0)]
  · rw [key, if_pos (Or.inl e0)]
  · rw [key, if_neg nb1, if_pos r1]
  · rw [key, if_neg nb2, if_neg (by rw [r2]; decide)]
  · rw [key, if_neg nb2, if_neg (by rw [r2]; decide)]

/-- Witness for C1: a blank name, a malformed address and a valid submission
on a form whose defaults are empty. -/
theorem submitHandler_outcome_witness :
    (submitHandler (formOf "  ".toList "a@b.co".toList "hi".toList [] [] [])).alerts =
      [fillAllFieldsNotice] ∧
    (submitHandler (formOf "A".toList "a@b".toList "hi".toList [] [] [])).alerts =
      [invalidEmailNotice] ∧
    (submitHandler (formOf "A".toList "a@b.co".toList "hi".toList [] [] [])).form =
      formOf [] [] [] [] [] [] :=
  ⟨((submitHandler_outcome "  ".toList "a@b.co".toList "hi".toList [] [] []).2.2.2.1
      (Or.inl (by decide))).1,
   ((submitHandler_outcome "A".toList "a@b".toList "hi".toList [] [] []).2.2.2.2.1
      (by decide) (by decide)).1,
   ((submitHandler_outcome "A".toList "a@b.co".toList "hi".toList [] [] []).2.2.2.2.2.1
      (by decide) (by decide)).2.2⟩

/-- On a form without `#name` the submit handler prevents the default
action and then raises a `TypeError` at `name.value`, showing no notice. -/
theorem submitHandler_missing_name (email message : Option Field) :
    submitHandler { name := none, email := email, message := message } =
      { defaultPrevented := true, alerts := [], resetCalled := false,
        form := { name := none, email := email, message := message },
        thrown := some .typeError } := by
  simp [submitHandler, anyFieldBlank, fieldValue, bind, Except.bind]

/-- Sample run of the submit handler: the valid sample submission on a form whose defaults
are empty shows the demo notice and leaves the three fields empty. -/
theorem submitHandler_sample_cleared :
    submitHandler (formOf "A".toList "a@b.co".toList "hi".toList [] [] []) =
      { defaultPrevented := true, alerts := [demoNotice], resetCalled := true,
        form := formOf [] [] [] [] [] [], thrown := none } := by
  decide

/-- C2, as the specification words it, fails: `a@b.c@d` has the worded shape
(final run `c@d` free of white space) and is rejected by the code. -/
theorem emailCheck_spec_shape_counterexample :
    SpecEmailShape "a@b.c@d".toList ∧ regexTest emailPattern "a@b.c@d".toList = false := by
  refine ⟨⟨['a'], ['b'], ['c', '@', 'd'], by decide, by decide, by decide, by decide, ?_, ?_, ?_⟩,
    by decide⟩
  · intro x hx
    rw [List.mem_singleton.mp hx]
    exact ⟨by decide, by decide⟩
  · intro x hx
    rw [List.mem_singleton.mp hx]
    exact ⟨by decide, by decide⟩
  · intro x hx
    simp only [List.mem_cons, List.mem_singleton, List.not_mem_nil, or_false] at hx
    rcases hx with rfl | rfl | rfl <;> decide

/-- C2 (amended): the e-mail check accepts a value exactly when it is, as a
whole, a non-empty run of characters that are neither white space nor `@`,
then `@`, then such a run, then a dot, then again such a run: the final run
excludes `@` as well. -/
theorem emailCheck_accepts_iff (e : JSString) :
    regexTest emailPattern e = true ↔
      ∃ a b c : JSString, e = a ++ '@' :: (b ++ '.' :: c) ∧ a ≠ [] ∧ b ≠ [] ∧ c ≠ [] ∧
        (∀ x ∈ a, isWhiteSpace x = false ∧ x ≠ '@') ∧
        (∀ x ∈ b, isWhiteSpace x = false ∧ x ≠ '@') ∧
        (∀ x ∈ c, isWhiteSpace x = false ∧ x ≠ '@') :=
  regexTest_emailPattern_iff e

/-! ## Theorems: class lists -/

theorem classContains_iff (cl : List String) (t : String) :
    classContains cl t = true ↔ t ∈ cl := by
  simp [classContains]

theorem classContains_classAdd (cl : List String) (t : String) :
    classContains (classAdd cl t) t = true := by
  by_cases h : t ∈ cl <;> simp [classContains, classAdd, h]

theorem classContains_classRemove (cl : List String) (t : String) :
    classContains (classRemove cl t) t = false := by
  simp [classContains, classRemove]

theorem classRemove_of_not_mem (cl : List String) (t : String) (h : t ∉ cl) :
    classRemove cl t = cl := by
  unfold classRemove
  rw [List.filter_eq_self]
  intro x hx
  have : x ≠ t := fun e => h (e ▸ hx)
  simpa using this

theorem classRemove_append_self (cl : List String) (t : String) (h : t ∉ cl) :
    classRemove (cl ++ [t]) t = cl := by
  have := classRemove_of_not_mem cl t h
  unfold classRemove at this ⊢
  simp [List.filter_append, this]

theorem classRemove_idem (cl : List String) (t : String) :
    classRemove (classRemove cl t) t = classRemove cl t :=
  classRemove_of_not_mem _ _ (by simp [classRemove])

theorem classAdd_idem (cl : List String) (t : String) :
    classAdd (classAdd cl t) t = classAdd cl t := by
  have h := classContains_classAdd cl t
  unfold classContains at h
  generalize classAdd cl t = l at h ⊢
  have hm : t ∈ l := by simpa using h
  simp [classAdd, hm]

/-! ## Theorems: mobile navigation -/

theorem outsideClickHandler_insideToggle (s : NavState) (t : ClickTarget)
    (ht : t.insideToggle = true) : outsideClickHandler s t = s := by
  simp [outsideClickHandler, ht]

theorem clickOnToggle_of_closed (t : ClickTarget) (ht : t.insideToggle = true) (s : NavState)
    (h1 : s.ariaExpanded ≠ some "true") (h2 : "is-open" ∉ s.navClasses) :
    clickOnToggle t s =
      { ariaExpanded := some "true", navClasses := s.navClasses ++ ["is-open"],
        focus := s.focus } := by
  unfold clickOnToggle
  rw [outsideClickHandler_insideToggle _ _ ht]
  simp [toggleClickHandler, h1, boolToString, classToggle, classAdd, h2]

theorem clickOnToggle_of_open (t : ClickTarget) (ht : t.insideToggle = true) (s : NavState)
    (h1 : s.ariaExpanded = some "true") :
    clickOnToggle t s =
      { ariaExpanded := some "false", navClasses := classRemove s.navClasses "is-open",
        focus := s.focus } := by
  unfold clickOnToggle
  rw [outsideClickHandler_insideToggle _ _ ht]
  simp [toggleClickHandler, h1, boolToString, classToggle]

/-- The state after `n` clicks on the toggle, in closed form. -/
theorem toggleClicks_closed_form (t : ClickTarget) (ht : t.insideToggle = true) (s : NavState)
    (h1 : s.ariaExpanded ≠ some "true") (h2 : "is-open" ∉ s.navClasses) (n : Nat) :
    toggleClicks t (n + 1) s =
      if n % 2 = 0 then
        { ariaExpanded := some "true", navClasses := s.navClasses ++ ["is-open"],
          focus := s.focus }
      else
        { ariaExpanded := some "false", navClasses := s.navClasses, focus := s.focus } := by
  induction n with
  | zero => simpa [toggleClicks] using clickOnToggle_of_closed t ht s h1 h2
  | succ n ih =>
      rw [toggleClicks, ih]
      by_cases hn : n % 2 = 0
      · have hn1 : (n + 1) % 2 ≠ 0 := by omega
        rw [if_pos hn, if_neg hn1, clickOnToggle_of_open t ht _ rfl]
        simp [classRemove_append_self _ _ h2]
      · have hn1 : (n + 1) % 2 = 0 := by omega
        rw [if_neg hn, if_pos hn1]
        exact clickOnToggle_of_closed t ht ⟨some "false", s.navClasses, s.focus⟩ 
          (by simp) h2

/-- C3: from the closed state, after `n` clicks on the toggle control (each
handled by the toggle listener and then by the document listener),
`aria-expanded` is `true` exactly when `n` is odd and the nav has class
`is-open` exactly when `n` is odd; hence both agree after every click, and
two further clicks bring back the state reached after any click (open,
close, open gives the state after the first open). -/
theorem toggleClicks_parity (t : ClickTarget) (ht : t.insideToggle = true) (s : NavState)
    (h1 : s.ariaExpanded ≠ some "true") (h2 : classContains s.navClasses "is-open" = false)
    (n : Nat) :
    ((toggleClicks t n s).ariaExpanded = some "true" ↔ n % 2 = 1) ∧
    (classContains (toggleClicks t n s).navClasses "is-open" = true ↔ n % 2 = 1) ∧
    ((toggleClicks t n s).ariaExpanded = some "true" ↔
      classContains (toggleClicks t n s).navClasses "is-open" = true) ∧
    toggleClicks t 3 s = toggleClicks t 1 s ∧
    toggleClicks t (n + 3) s = toggleClicks t (n + 1) s := by
  have h2m : "is-open" ∉ s.navClasses := by
    intro h
    rw [(classContains_iff _ _).mpr h] at h2
    exact Bool.noConfusion h2
  have cf := toggleClicks_closed_form t ht s h1 h2m
  have a : (toggleClicks t n s).ariaExpanded = some "true" ↔ n % 2 = 1 := by
    cases n with
    | zero => simpa [toggleClicks] using h1
    | succ k =>
        rw [cf]
        by_cases hk : k % 2 = 0
        · rw [if_pos hk]; simp; omega
        · rw [if_neg hk]; simp; omega
  have b : classContains (toggleClicks t n s).navClasses "is-open" = true ↔ n % 2 = 1 := by
    cases n with
    | zero => simpa [toggleClicks] using h2
    | succ k =>
        rw [cf]
        by_cases hk : k % 2 = 0
        · rw [if_pos hk]; simp [classContains]; omega
        · rw [if_neg hk, classContains_iff]
          constructor
          · intro h; exact absurd h h2m
          · intro h; omega
  refine ⟨a, b, a.trans b.symm, ?_, ?_⟩
  · rw [cf 2, cf 0]
  · rw [cf (n + 2), cf n]
    have : (n + 2) % 2 = n % 2 := by omega
    simp only [this]

/-- Witness for C3: three clicks from a closed menu carrying one other class. -/
theorem toggleClicks_parity_witness :
    (toggleClicks ⟨false, true⟩ 3 ⟨some "false", ["nav"], .elsewhere 0⟩).ariaExpanded
        = some "true" ∧
    classContains (toggleClicks ⟨false, true⟩ 3 ⟨some "false", ["nav"], .elsewhere 0⟩).navClasses
        "is-open" = true := by
  have h := toggleClicks_parity ⟨false, true⟩ rfl ⟨some "false", ["nav"], .elsewhere 0⟩
    (by decide) (by decide) 3
  exact ⟨h.1.mpr (by decide), h.2.1.mpr (by decide)⟩

/-- C9: the document click handler closes the menu (`aria-expanded` set to
`false`, `is-open` removed, the other classes and the focus kept) when the nav
has class `is-open` and the target lies neither in the nav nor in the toggle;
in every other case, and so for every click inside the nav, it leaves the
state as it was.  The state changes exactly in the first case. -/
theorem outsideClickHandler_closes_iff (s : NavState) (t : ClickTarget) :
    ((classContains s.navClasses "is-open" = true ∧ t.insideNav = false ∧
        t.insideToggle = false) →
      outsideClickHandler s t =
        { ariaExpanded := some "false", navClasses := classRemove s.navClasses "is-open",
          focus := s.focus } ∧
      classContains (outsideClickHandler s t).navClasses "is-open" = false) ∧
    (¬ (classContains s.navClasses "is-open" = true ∧ t.insideNav = false ∧
        t.insideToggle = false) →
      outsideClickHandler s t = s) ∧
    (t.insideNav = true → outsideClickHandler s t = s) ∧
    (outsideClickHandler s t ≠ s ↔
      (classContains s.navClasses "is-open" = true ∧ t.insideNav = false ∧
        t.insideToggle = false)) := by
  have hyes : (classContains s.navClasses "is-open" = true ∧ t.insideNav = false ∧
        t.insideToggle = false) →
      outsideClickHandler s t =
        { ariaExpanded := some "false", navClasses := classRemove s.navClasses "is-open",
          focus := s.focus } := by
    rintro ⟨ho, hn, ht⟩
    simp [outsideClickHandler, ho, hn, ht]
  have hno : ¬ (classContains s.navClasses "is-open" = true ∧ t.insideNav = false ∧
        t.insideToggle = false) → outsideClickHandler s t = s := by
    intro h
    unfold outsideClickHandler
    rw [if_neg]
    intro hc
    apply h
    have hc2 : (classContains s.navClasses "is-open" = true ∧ t.insideNav = false) ∧
        t.insideToggle = false := by simpa [Bool.and_eq_true] using hc
    exact ⟨hc2.1.1, hc2.1.2, hc2.2⟩
  refine ⟨fun h => ⟨hyes h, ?_⟩, hno, fun h => hno (by simp [h]), ?_⟩
  · rw [hyes h]; exact classContains_classRemove _ _
  · constructor
    · intro hne
      by_contra hc
      exact hne (hno hc)
    · intro h heq
      have h1 := congrArg (fun x => classContains x.navClasses "is-open") heq
      simp only [hyes h, classContains_classRemove, h.1] at h1
      exact Bool.noConfusion h1

/-- Witness for C9: an outside click on an open menu, and a click inside the
nav of the same menu. -/
theorem outsideClickHandler_closes_iff_witness :
    outsideClickHandler ⟨some "true", ["nav", "is-open"], .elsewhere 0⟩ ⟨false, false⟩ =
      ⟨some "false", ["nav"], .elsewhere 0⟩ ∧
    outsideClickHandler ⟨some "true", ["nav", "is-open"], .elsewhere 0⟩ ⟨true, false⟩ =
      ⟨some "true", ["nav", "is-open"], .elsewhere 0⟩ := by
  have h := outsideClickHandler_closes_iff ⟨some "true", ["nav", "is-open"], .elsewhere 0⟩
    ⟨false, false⟩
  have h' := outsideClickHandler_closes_iff ⟨some "true", ["nav", "is-open"], .elsewhere 0⟩
    ⟨true, false⟩
  exact ⟨(h.1 ⟨by decide, rfl, rfl⟩).1, h'.2.2.1 rfl⟩

/-- C10, as stated, fails: on a toggle control that is not focusable,
`Escape` on an open menu closes the menu and the focus stays on the element
that had it. -/
theorem escapeKey_unfocusable_counterexample :
    (escapeKeyHandler false ⟨some "true", ["nav", "is-open"], .elsewhere 7⟩ "Escape").ariaExpanded
      = some "false" ∧
    (escapeKeyHandler false ⟨some "true", ["nav", "is-open"], .elsewhere 7⟩ "Escape").focus
      = .elsewhere 7 ∧
    (escapeKeyHandler false ⟨some "true", ["nav", "is-open"], .elsewhere 7⟩ "Escape").focus
      ≠ .navToggle := by
  decide

/-- C10 (amended): on `Escape` with the nav carrying `is-open`, the document
keydown handler sets `aria-expanded` to `false`, removes `is-open` (keeping
the other classes) and calls `focus()` on the toggle control: the focus moves
to the toggle when the toggle is focusable and stays where it was when it is
not.  When the menu is closed or the key is another one, the handler changes
neither `aria-expanded`, nor the classes, nor the focused element. -/
theorem escapeKeyHandler_effect (toggleFocusable : Bool) (s : NavState) (key : String) :
    ((key = "Escape" ∧ classContains s.navClasses "is-open" = true) →
      (escapeKeyHandler toggleFocusable s key).ariaExpanded = some "false" ∧
      (escapeKeyHandler toggleFocusable s key).navClasses =
        classRemove s.navClasses "is-open" ∧
      classContains (escapeKeyHandler toggleFocusable s key).navClasses "is-open" = false ∧
      (toggleFocusable = true → (escapeKeyHandler toggleFocusable s key).focus = .navToggle) ∧
      (toggleFocusable = false → (escapeKeyHandler toggleFocusable s key).focus = s.focus)) ∧
    ((classContains s.navClasses "is-open" = false ∨ key ≠ "Escape") →
      escapeKeyHandler toggleFocusable s key = s) := by
  constructor
  · rintro ⟨hk, ho⟩
    refine ⟨?_, ?_, ?_, ?_, ?_⟩
    · simp [escapeKeyHandler, hk, ho]
    · simp [escapeKeyHandler, hk, ho]
    · simp [escapeKeyHandler, hk, ho, classContains_classRemove]
    · intro hf
      simp [escapeKeyHandler, hk, ho, focusMethod, hf]
    · intro hf
      simp [escapeKeyHandler, hk, ho, focusMethod, hf]
  · intro h
    unfold escapeKeyHandler
    rw [if_neg]
    rcases h with h | h
    · simp [h]
    · simp [h]

/-- Witness for C10: `Escape` on an open menu with a focusable toggle,
`Escape` on a closed menu and another key on an open one. -/
theorem escapeKeyHandler_effect_witness :
    (escapeKeyHandler true ⟨some "true", ["nav", "is-open"], .elsewhere 7⟩ "Escape").focus =
      .navToggle ∧
    (escapeKeyHandler true ⟨some "true", ["nav", "is-open"], .elsewhere 7⟩ "Escape").navClasses =
      ["nav"] ∧
    escapeKeyHandler true ⟨some "false", ["nav"], .elsewhere 7⟩ "Escape" =
      ⟨some "false", ["nav"], .elsewhere 7⟩ ∧
    escapeKeyHandler true ⟨some "true", ["nav", "is-open"], .elsewhere 7⟩ "Enter" =
      ⟨some "true", ["nav", "is-open"], .elsewhere 7⟩ := by
  have h1 := (escapeKeyHandler_effect true ⟨some "true", ["nav", "is-open"], .elsewhere 7⟩
    "Escape").1 ⟨rfl, by decide⟩
  have h2 := (escapeKeyHandler_effect true ⟨some "false", ["nav"], .elsewhere 7⟩ "Escape").2
    (Or.inl (by decide))
  have h3 := (escapeKeyHandler_effect true ⟨some "true", ["nav", "is-open"], .elsewhere 7⟩
    "Enter").2 (Or.inr (by decide))
  refine ⟨h1.2.2.2.1 rfl, ?_, h2, h3⟩
  rw [h1.2.1]
  decide

/-! ## Theorems: header scroll state -/

theorem updateHeaderState_scrolled_iff (y : ℚ) (cl : List String) :
    classContains (updateHeaderState y cl) "scrolled" = true ↔ y > 50 := by
  unfold updateHeaderState
  by_cases h : y > 50
  · rw [if_pos h, classContains_classAdd]; simp [h]
  · rw [if_neg h, classContains_classRemove]; simp [h]

theorem headerAfter_append (y0 : ℚ) (ys : List ℚ) (y : ℚ) (cl : List String) :
    headerAfter y0 (ys ++ [y]) cl = updateHeaderState y (headerAfter y0 ys cl) := by
  simp [headerAfter, List.foldl_append]

/-- C8: after the evaluation made by `initHeaderScroll` at registration time
and after every later scroll event, the header has class `scrolled` exactly
when the offset read last exceeds 50, whatever its classes were before; at
offset 50 the class is absent, and evaluating again at the same offset changes
nothing.  When `#header` exists, `initHeaderScroll` makes that first
evaluation and registers the scroll listener. -/
theorem header_scrolled_iff (y : ℚ) (earlier : List ℚ) (y0 : ℚ) (cl : List String) (p : Page) :
    (classContains (updateHeaderState y cl) "scrolled" = true ↔ y > 50) ∧
    (classContains (headerAfter y [] cl) "scrolled" = true ↔ y > 50) ∧
    (classContains (headerAfter y0 (earlier ++ [y]) cl) "scrolled" = true ↔ y > 50) ∧
    classContains (updateHeaderState 50 cl) "scrolled" = false ∧
    updateHeaderState y (updateHeaderState y cl) = updateHeaderState y cl ∧
    (p.getElementById "header" ≠ none →
      initHeaderScroll p =
        .ok ({ p with headerClasses := headerAfter p.scrollY [] p.headerClasses },
          [{ target := .window, type := "scroll", handler := .headerScroll }])) := by
  refine ⟨updateHeaderState_scrolled_iff y cl, updateHeaderState_scrolled_iff y cl, ?_, ?_, ?_, ?_⟩
  · rw [headerAfter_append]
    exact updateHeaderState_scrolled_iff y _
  · have h := updateHeaderState_scrolled_iff 50 cl
    cases hc : classContains (updateHeaderState 50 cl) "scrolled"
    · rfl
    · exact absurd (h.mp hc) (by norm_num)
  · unfold updateHeaderState
    by_cases h : y > 50
    · simp only [if_pos h, classAdd_idem]
    · simp only [if_neg h, classRemove_idem]
  · intro h
    cases hh : p.getElementById "header" with
    | none => exact absurd hh h
    | some x =>
        simp [initHeaderScroll, hh, addEventListener, headerAfter, bind, Except.bind, pure,
          Except.pure]

/-- Witness for C8: a page loaded at offset 120 whose header exists. -/
theorem header_scrolled_iff_witness :
    initHeaderScroll ⟨["header"], 0, 0, 0, [], ["site-header"], 120⟩ =
      .ok (⟨["header"], 0, 0, 0, [], ["site-header", "scrolled"], 120⟩,
        [{ target := .window, type := "scroll", handler := .headerScroll }]) := by
  have h := (header_scrolled_iff 0 [] 0 [] ⟨["header"], 0, 0, 0, [], ["site-header"], 120⟩).2.2.2.2.2
    (by decide)
  rw [h]
  have e : headerAfter 120 [] ["site-header"] = ["site-header", "scrolled"] := by
    simp [headerAfter, updateHeaderState, classAdd]
    norm_num
  simp [e]

/-! ## Theorems: FAQ accordion -/

theorem getElem?_updateAt (f : Element → Element) (i : Nat) (d : Dom) (j : Nat) :
    (updateAt f i d)[j]? = if j = i then (d[j]?).map f else d[j]? := by
  induction d generalizing i j with
  | nil => simp [updateAt]
  | cons e es ih =>
      cases i with
      | zero =>
          cases j with
          | zero => simp [updateAt]
          | succ j => simp [updateAt]
      | succ i =>
          cases j with
          | zero => simp [updateAt]
          | succ j => simp [updateAt, ih]

theorem length_updateAt (f : Element → Element) (i : Nat) (d : Dom) :
    (updateAt f i d).length = d.length := by
  induction d generalizing i with
  | nil => simp [updateAt]
  | cons e es ih =>
      cases i with
      | zero => simp [updateAt]
      | succ i => simp [updateAt, ih]

theorem findIdx_updateAt (p : Element → Bool) (f : Element → Element)
    (hf : ∀ e, p (f e) = p e) (i : Nat) (d : Dom) :
    (updateAt f i d).findIdx p = d.findIdx p := by
  induction d generalizing i with
  | nil => simp [updateAt]
  | cons e es ih =>
      cases i with
      | zero => simp [updateAt, List.findIdx_cons, hf]
      | succ i => simp [updateAt, List.findIdx_cons, ih]

theorem getElementById_updateAt (f : Element → Element) (hf : ∀ e, (f e).id = e.id)
    (i : Nat) (d : Dom) (key : String) :
    getElementById (updateAt f i d) key = getElementById d key := by
  unfold getElementById
  rw [findIdx_updateAt _ f (fun e => by rw [hf e]), length_updateAt]

theorem map_getElem?_updateAt {β : Type} (proj : Element → β) (f : Element → Element)
    (hf : ∀ e, proj (f e) = proj e) (i : Nat) (d : Dom) (k : Nat) :
    ((updateAt f i d)[k]?).map proj = (d[k]?).map proj := by
  rw [getElem?_updateAt]
  by_cases h : k = i
  · rw [if_pos h]
    cases d[k]? with
    | none => rfl
    | some e => simp [hf]
  · rw [if_neg h]

theorem getElem?_updateAt_ne (f : Element → Element) (i : Nat) (d : Dom) (k : Nat)
    (h : k ≠ i) : (updateAt f i d)[k]? = d[k]? := by
  rw [getElem?_updateAt, if_neg h]

/-- The three click listeners of the navigation leave the focus alone. -/
theorem navClickListeners_focus (s : NavState) (t : ClickTarget) :
    (toggleClickHandler s).focus = s.focus ∧ (navLinkClickHandler s).focus = s.focus ∧
    (outsideClickHandler s t).focus = s.focus := by
  refine ⟨rfl, rfl, ?_⟩
  simp only [outsideClickHandler]
  by_cases h : (classContains s.navClasses "is-open" && !t.insideNav && !t.insideToggle) = true
  · rw [if_pos h]
  · rw [if_neg h]

theorem faqClickHandler_cases (d : Dom) (q : Nat) :
    faqClickHandler d q = d ∨
    ∃ question a, d[q]? = some question ∧
      getElementById d (toDOMString question.ariaControls) = some a ∧
      faqClickHandler d q =
        updateAt (fun e => { e with hidden := question.ariaExpanded == some "true" }) a
          (updateAt
            (fun e =>
              { e with
                ariaExpanded := some (boolToString (!(question.ariaExpanded == some "true"))) })
            q d) := by
  cases hq : d[q]? with
  | none => exact Or.inl (by simp only [faqClickHandler, hq])
  | some question =>
      cases h : getElementById d (toDOMString question.ariaControls) with
      | none => exact Or.inl (by simp only [faqClickHandler, hq, h])
      | some a => exact Or.inr ⟨question, a, rfl, h, by simp only [faqClickHandler, hq, h]⟩

theorem liftNav_cases (refs : NavRefs) (f : NavState → NavState) (d : Dom) :
    liftNav refs f d = d ∨ ∃ s, liftNav refs f d = writeNav refs s d := by
  unfold liftNav
  cases navStateOf refs d with
  | none => exact Or.inl rfl
  | some s => exact Or.inr ⟨f s, rfl⟩

theorem getElementById_runClickListener (refs : NavRefs) (d : Dom) (l : ClickListener)
    (key : String) :
    getElementById (runClickListener refs d l) key = getElementById d key := by
  have nav : ∀ f, getElementById (liftNav refs f d) key = getElementById d key := by
    intro f
    rcases liftNav_cases refs f d with h | ⟨s, h⟩
    · rw [h]
    · rw [h, writeNav, getElementById_updateAt, getElementById_updateAt]
      all_goals intro _; rfl
  cases l with
  | toggleClick => exact nav _
  | navLinkClick => exact nav _
  | outsideClick t => exact nav _
  | anchorClick h => rfl
  | faqClick q =>
      show getElementById (faqClickHandler d q) key = getElementById d key
      rcases faqClickHandler_cases d q with h | ⟨question, a, -, -, h⟩
      · rw [h]
      · rw [h, getElementById_updateAt, getElementById_updateAt]
        all_goals intro _; rfl

theorem ariaControls_runClickListener (refs : NavRefs) (d : Dom) (l : ClickListener)
    (k : Nat) :
    ((runClickListener refs d l)[k]?).map Element.ariaControls =
      (d[k]?).map Element.ariaControls := by
  have nav : ∀ f, ((liftNav refs f d)[k]?).map Element.ariaControls =
      (d[k]?).map Element.ariaControls := by
    intro f
    rcases liftNav_cases refs f d with h | ⟨s, h⟩
    · rw [h]
    · rw [h, writeNav, map_getElem?_updateAt, map_getElem?_updateAt]
      all_goals intro _; rfl
  cases l with
  | toggleClick => exact nav _
  | navLinkClick => exact nav _
  | outsideClick t => exact nav _
  | anchorClick h => rfl
  | faqClick q =>
      show ((faqClickHandler d q)[k]?).map Element.ariaControls = _
      rcases faqClickHandler_cases d q with h | ⟨question, a, -, -, h⟩
      · rw [h]
      · rw [h, map_getElem?_updateAt, map_getElem?_updateAt]
        all_goals intro _; rfl

theorem ariaExpanded_runClickListener (refs : NavRefs) (d : Dom) (l : ClickListener)
    (k : Nat) (hk : k ≠ refs.toggle) (hl : l ≠ .faqClick k) :
    ((runClickListener refs d l)[k]?).map Element.ariaExpanded =
      (d[k]?).map Element.ariaExpanded := by
  have nav : ∀ f, ((liftNav refs f d)[k]?).map Element.ariaExpanded =
      (d[k]?).map Element.ariaExpanded := by
    intro f
    rcases liftNav_cases refs f d with h | ⟨s, h⟩
    · rw [h]
    · rw [h, writeNav, map_getElem?_updateAt, getElem?_updateAt_ne _ _ _ _ hk]
      intro _; rfl
  cases l with
  | toggleClick => exact nav _
  | navLinkClick => exact nav _
  | outsideClick t => exact nav _
  | anchorClick h => rfl
  | faqClick q =>
      show ((faqClickHandler d q)[k]?).map Element.ariaExpanded = _
      have hkq : k ≠ q := fun e => hl (by rw [e])
      rcases faqClickHandler_cases d q with h | ⟨question, a, -, -, h⟩
      · rw [h]
      · rw [h, map_getElem?_updateAt, getElem?_updateAt_ne _ _ _ _ hkq]
        intro _; rfl

theorem hidden_runClickListener (refs : NavRefs) (d : Dom) (l : ClickListener) (j : Nat)
    (hj : ∀ k e, l = .faqClick k → d[k]? = some e →
      getElementById d (toDOMString e.ariaControls) ≠ some j) :
    ((runClickListener refs d l)[j]?).map Element.hidden = (d[j]?).map Element.hidden := by
  have nav : ∀ f, ((liftNav refs f d)[j]?).map Element.hidden =
      (d[j]?).map Element.hidden := by
    intro f
    rcases liftNav_cases refs f d with h | ⟨s, h⟩
    · rw [h]
    · rw [h, writeNav, map_getElem?_updateAt, map_getElem?_updateAt]
      all_goals intro _; rfl
  cases l with
  | toggleClick => exact nav _
  | navLinkClick => exact nav _
  | outsideClick t => exact nav _
  | anchorClick h => rfl
  | faqClick q =>
      show ((faqClickHandler d q)[j]?).map Element.hidden = _
      rcases faqClickHandler_cases d q with h | ⟨question, a, hq, ha, h⟩
      · rw [h]
      · have hja : j ≠ a := fun e => hj q question rfl hq (e ▸ ha)
        rw [h, getElem?_updateAt_ne _ _ _ _ hja, map_getElem?_updateAt]
        intro _; rfl

/-- A click dispatch changes no id and no `aria-controls`; it leaves
`aria-expanded` as it was on every element that is neither the navigation
toggle nor a question with its click listener on the path, and `hidden` as it
was on every element that is not the answer of such a question. -/
theorem dispatchClick_frame (refs : NavRefs) (path : List ClickListener) (d : Dom) :
    (∀ key, getElementById (dispatchClick refs d path) key = getElementById d key) ∧
    (∀ k : Nat, ((dispatchClick refs d path)[k]?).map Element.ariaControls =
      (d[k]?).map Element.ariaControls) ∧
    (∀ k : Nat, k ≠ refs.toggle → ClickListener.faqClick k ∉ path →
      ((dispatchClick refs d path)[k]?).map Element.ariaExpanded =
        (d[k]?).map Element.ariaExpanded) ∧
    (∀ j : Nat, (∀ (k : Nat) (e : Element), ClickListener.faqClick k ∈ path → d[k]? = some e →
        getElementById d (toDOMString e.ariaControls) ≠ some j) →
      ((dispatchClick refs d path)[j]?).map Element.hidden = (d[j]?).map Element.hidden) := by
  induction path generalizing d with
  | nil => exact ⟨fun _ => rfl, fun _ => rfl, fun _ _ _ => rfl, fun _ _ => rfl⟩
  | cons l rest ih =>
      obtain ⟨i1, i2, i3, i4⟩ := ih (runClickListener refs d l)
      have e : dispatchClick refs d (l :: rest) =
          dispatchClick refs (runClickListener refs d l) rest := rfl
      rw [e]
      refine ⟨?_, ?_, ?_, ?_⟩
      · intro key
        rw [i1, getElementById_runClickListener]
      · intro k
        rw [i2, ariaControls_runClickListener]
      · intro k hk hn
        rw [i3 k hk (fun h => hn (List.mem_cons_of_mem _ h)),
          ariaExpanded_runClickListener refs d l k hk
            (fun h => hn (h ▸ List.mem_cons_self _ _))]
      · intro j hj
        rw [i4 j ?_, hidden_runClickListener refs d l j
          (fun k e hl hk => hj k e (hl ▸ List.mem_cons_self _ _) hk)]
        intro k e hmem hk
        have hc := ariaControls_runClickListener refs d l k
        rw [hk] at hc
        cases hd : d[k]? with
        | none => rw [hd] at hc; exact Option.noConfusion hc
        | some e0 =>
            rw [hd] at hc
            have hce : e.ariaControls = e0.ariaControls := by simpa using hc
            rw [getElementById_runClickListener, hce]
            exact hj k e0 (List.mem_cons_of_mem _ hmem) hd

theorem faqKeydownHandler_dom_cases (refs : NavRefs) (d : Dom) (q : Nat) (key : String)
    (before after : List ClickListener) :
    (faqKeydownHandler refs d q key before after).dom = d ∨
    (faqKeydownHandler refs d q key before after).dom =
      dispatchClick refs d (before ++ .faqClick q :: after) := by
  unfold faqKeydownHandler clickMethod
  split
  · cases d[q]? with
    | none => exact Or.inl rfl
    | some e =>
        cases hdis : e.disabled
        · exact Or.inr (by simp [hdis])
        · exact Or.inl (by simp [hdis])
  · exact Or.inl rfl

/-- C4, as stated, fails twice.  Two questions name the same answer element: a
click on the first changes the `hidden` flag of the answer element of the
second.  And with an open menu, Enter on a question whose `aria-controls`
names no element dispatches a click that bubbles to the listener on
`document`, which closes the menu: `aria-expanded` of `#nav-toggle` goes from
`true` to `false`, so something does change. -/
theorem faq_frame_counterexample :
    getElementById sharedAnswerDom (toDOMString (some "a1")) = some 2 ∧
    (sharedAnswerDom[2]?).map Element.hidden = some true ∧
    ((faqClickHandler sharedAnswerDom 0)[2]?).map Element.hidden = some false ∧
    getElementById openMenuDom (toDOMString (some "missing")) = none ∧
    (openMenuDom[0]?).map Element.ariaExpanded = some (some "true") ∧
    (((faqKeydownHandler ⟨0, 1⟩ openMenuDom 2 "Enter" []
        [.outsideClick ⟨false, false⟩]).dom)[0]?).map Element.ariaExpanded
      = some (some "false") := by
  decide

/-- C4 (amended).  The click listener of the question at position `q` leaves
`aria-expanded` as it was on every other element and `hidden` as it was on
every element other than the one the `aria-controls` of `q` resolves to (so on
the answer of every other pair, unless that is the same element); when the
`aria-controls` of `q` resolves to no element it changes nothing at all.  The
keydown listener does nothing on a key other than Enter and Space; on Enter
or Space it prevents the default action and calls `q.click()`, which does
nothing on a disabled control and otherwise dispatches a click that runs the
click listener of `q` and the other click listeners on its propagation path,
up to the listener on `document`.  Such a dispatch, from the keypress or from
a click on `q`, leaves `aria-expanded` as it was on every element that is
neither `#nav-toggle` nor a question with its click listener on the path, and
`hidden` as it was on every element that is not the answer of such a
question; when the `aria-controls` of `q` resolves to no element and the
listener on `document` is the only other one on the path, all the keypress
can do is close an open menu. -/
theorem faqHandlers_frame (refs : NavRefs) (d : Dom) (q : Nat) (question : Element)
    (key : String) (before after : List ClickListener) (hq : d[q]? = some question) :
    (∀ k : Nat, k ≠ q →
      ((faqClickHandler d q)[k]?).map Element.ariaExpanded =
        (d[k]?).map Element.ariaExpanded) ∧
    (∀ j : Nat, getElementById d (toDOMString question.ariaControls) ≠ some j →
      ((faqClickHandler d q)[j]?).map Element.hidden = (d[j]?).map Element.hidden) ∧
    (getElementById d (toDOMString question.ariaControls) = none →
      faqClickHandler d q = d) ∧
    (key ≠ "Enter" → key ≠ " " →
      faqKeydownHandler refs d q key before after =
        { defaultPrevented := false, dom := d }) ∧
    ((key = "Enter" ∨ key = " ") →
      (faqKeydownHandler refs d q key before after).defaultPrevented = true ∧
      (faqKeydownHandler refs d q key before after).dom =
        if question.disabled = true then d
        else dispatchClick refs d (before ++ .faqClick q :: after)) ∧
    (∀ d' : Dom,
      (d' = dispatchClick refs d (before ++ .faqClick q :: after) ∨
        d' = (faqKeydownHandler refs d q key before after).dom) →
      (∀ k : Nat, k ≠ refs.toggle → k ≠ q → ClickListener.faqClick k ∉ before →
        ClickListener.faqClick k ∉ after →
        (d'[k]?).map Element.ariaExpanded = (d[k]?).map Element.ariaExpanded) ∧
      (∀ j : Nat, getElementById d (toDOMString question.ariaControls) ≠ some j →
        (∀ (k : Nat) (e : Element),
          (ClickListener.faqClick k ∈ before ∨ ClickListener.faqClick k ∈ after) →
          d[k]? = some e → getElementById d (toDOMString e.ariaControls) ≠ some j) →
        (d'[j]?).map Element.hidden = (d[j]?).map Element.hidden)) ∧
    (getElementById d (toDOMString question.ariaControls) = none →
      ∀ t : ClickTarget,
        (faqKeydownHandler refs d q key [] [.outsideClick t]).dom = d ∨
        (faqKeydownHandler refs d q key [] [.outsideClick t]).dom =
          liftNav refs (fun s => outsideClickHandler s t) d) := by
  have hcases := faqClickHandler_cases d q
  have hnone : getElementById d (toDOMString question.ariaControls) = none →
      faqClickHandler d q = d := by
    intro hn
    rcases hcases with h | ⟨question0, a, hq0, ha, -⟩
    · exact h
    · rw [hq] at hq0
      rw [← Option.some.inj hq0, hn] at ha
      exact Option.noConfusion ha
  have hframe : ∀ d' : Dom, d' = dispatchClick refs d (before ++ .faqClick q :: after) →
      (∀ k : Nat, k ≠ refs.toggle → k ≠ q → ClickListener.faqClick k ∉ before →
        ClickListener.faqClick k ∉ after →
        (d'[k]?).map Element.ariaExpanded = (d[k]?).map Element.ariaExpanded) ∧
      (∀ j : Nat, getElementById d (toDOMString question.ariaControls) ≠ some j →
        (∀ (k : Nat) (e : Element),
          (ClickListener.faqClick k ∈ before ∨ ClickListener.faqClick k ∈ after) →
          d[k]? = some e → getElementById d (toDOMString e.ariaControls) ≠ some j) →
        (d'[j]?).map Element.hidden = (d[j]?).map Element.hidden) := by
    intro d' h
    rw [h]
    constructor
    · intro k hkt hkq hb ha
      refine (dispatchClick_frame refs _ d).2.2.1 k hkt ?_
      intro hmem
      rcases List.mem_append.mp hmem with hm | hm
      · exact hb hm
      · rcases List.mem_cons.mp hm with hm | hm
        · exact hkq (by simpa using hm)
        · exact ha hm
    · intro j hj hothers
      refine (dispatchClick_frame refs _ d).2.2.2 j ?_
      intro k e hmem hk
      rcases List.mem_append.mp hmem with hm | hm
      · exact hothers k e (Or.inl hm) hk
      · rcases List.mem_cons.mp hm with hm | hm
        · have hkq : k = q := by simpa using hm
          subst hkq
          rw [hq] at hk
          rw [← Option.some.inj hk]
          exact hj
        · exact hothers k e (Or.inr hm) hk
  refine ⟨?_, ?_, hnone, ?_, ?_, ?_, ?_⟩
  · intro k hk
    exact ariaExpanded_runClickListener ⟨k + 1, 0⟩ d (.faqClick q) k (by simp)
      (by simpa using fun e : q = k => hk e.symm)
  · intro j hj
    refine hidden_runClickListener ⟨0, 0⟩ d (.faqClick q) j ?_
    intro k e hl hk
    have hkq : q = k := by simpa using hl
    subst hkq
    rw [hq] at hk
    rw [← Option.some.inj hk]
    exact hj
  · intro h1 h2
    simp [faqKeydownHandler, h1, h2]
  · intro hk
    have hb : (key == "Enter" || key == " ") = true := by simpa using hk
    simp only [faqKeydownHandler, hb, if_true, clickMethod, hq, true_and]
  · intro d' hd
    rcases hd with h | h
    · exact hframe d' h
    · rcases faqKeydownHandler_dom_cases refs d q key before after with h0 | h0
      · rw [h, h0]
        exact ⟨fun _ _ _ _ _ => rfl, fun _ _ _ => rfl⟩
      · exact hframe d' (h.trans h0)
  · intro hn t
    rcases faqKeydownHandler_dom_cases refs d q key [] [.outsideClick t] with h | h
    · exact Or.inl h
    · right
      rw [h]
      simp only [dispatchClick, List.nil_append, List.foldl_cons, List.foldl_nil,
        runClickListener, hnone hn]

/-- Witness for C4: on the document with two pairs, a click on the first
question and Enter on it (with the listener on `document` on the path) leave
the second question and its answer as they were. -/
theorem faqHandlers_frame_witness :
    ((faqClickHandler twoPairsDom 0)[2]?).map Element.ariaExpanded = some (some "true") ∧
    ((faqClickHandler twoPairsDom 0)[3]?).map Element.hidden = some false ∧
    (((faqKeydownHandler ⟨7, 8⟩ twoPairsDom 0 "Enter" []
        [.outsideClick ⟨false, false⟩]).dom)[2]?).map Element.ariaExpanded
      = some (some "true") ∧
    (((faqKeydownHandler ⟨7, 8⟩ twoPairsDom 0 "Enter" []
        [.outsideClick ⟨false, false⟩]).dom)[3]?).map Element.hidden = some false := by
  have h := faqHandlers_frame ⟨7, 8⟩ twoPairsDom 0
    ⟨some "q1", ["faq-question"], some "false", some "a1", false, false⟩ "Enter" []
    [.outsideClick ⟨false, false⟩] rfl
  exact ⟨h.1 2 (by decide), h.2.1 3 (by decide),
    (h.2.2.2.2.2.1 _ (Or.inr rfl)).1 2 (by decide) (by decide) (by decide) (by decide),
    (h.2.2.2.2.2.1 _ (Or.inr rfl)).2 3 (by decide) (by
      intro k e hmem
      rcases hmem with hm | hm
      · exact absurd hm (List.not_mem_nil _)
      · simp at hm)⟩

/-! ## Theorems: anchor scrolling -/

theorem anchorClickHandler_found {N : Type} [Add N] [Sub N] [Zero N] (env : AnchorEnv N)
    (st : BrowserState) (targetId : String) (target : TargetElement N)
    (hne : targetId ≠ "#") (hres : env.querySelector targetId = .ok (some target)) :
    anchorClickHandler env st targetId =
      { defaultPrevented := true
        scrollRequests :=
          [{ top := target.top + env.pageYOffset - env.headerOffsetHeight.getD 0,
             behavior := "smooth" }]
        attributeWrites := [(target.ref, "tabindex", "-1")]
        state := { history := st.history.pushState targetId, activeElement := some target.ref }
        thrown := none } := by
  unfold anchorClickHandler
  have h : (targetId == "#") = false := by simpa using hne
  simp only [h, hres]
  cases env.headerOffsetHeight <;> rfl

/-- C5, as stated, fails: on a history of one entry the click on `#about`
leaves two entries; the handler pushes an entry, it does not replace the
current one. -/
theorem anchorClick_history_counterexample :
    sampleBrowserState.history.entries.length = 1 ∧
    (anchorClickHandler sampleAnchorEnv sampleBrowserState "#about").state.history.entries.length
      = 2 ∧
    (anchorClickHandler sampleAnchorEnv sampleBrowserState "#about").state.history ≠
      sampleBrowserState.history.replaceState "#about" := by
  decide

/-- C5 (amended): a click on an in-page anchor link whose fragment resolves
to an element sets the URL fragment to the href of the link by pushing a new
history entry: the entries after the current one are dropped, the new entry
is appended and becomes current, so the history has as many entries as the
old current position plus two; when the current entry was the last one, that
is exactly one entry more than before. -/
theorem anchorClick_pushes_history {N : Type} [Add N] [Sub N] [Zero N] (env : AnchorEnv N)
    (st : BrowserState) (targetId : String) (target : TargetElement N)
    (hne : targetId ≠ "#") (hres : env.querySelector targetId = .ok (some target))
    (hidx : st.history.index < st.history.entries.length) :
    (anchorClickHandler env st targetId).state.history = st.history.pushState targetId ∧
    (anchorClickHandler env st targetId).state.history.index = st.history.index + 1 ∧
    (anchorClickHandler env st targetId).state.history.entries.length = st.history.index + 2 ∧
    (anchorClickHandler env st targetId).state.history.entries[st.history.index + 1]? =
      some targetId ∧
    (st.history.index + 1 = st.history.entries.length →
      (anchorClickHandler env st targetId).state.history.entries =
        st.history.entries ++ [targetId] ∧
      (anchorClickHandler env st targetId).state.history.entries.length =
        st.history.entries.length + 1) := by
  rw [anchorClickHandler_found env st targetId target hne hres]
  have hlen : (st.history.entries.take (st.history.index + 1)).length = st.history.index + 1 := by
    rw [List.length_take]; omega
  refine ⟨rfl, rfl, ?_, ?_, ?_⟩
  · simp only [History.pushState, List.length_append, hlen, List.length_singleton]
  · simp only [History.pushState]
    rw [List.getElem?_append_right (by omega), hlen]
    simp
  · intro hlast
    have ht : st.history.entries.take (st.history.index + 1) = st.history.entries := by
      rw [hlast]; exact List.take_length _
    simp only [History.pushState, ht, List.length_append, List.length_singleton, and_self]

/-- Witness for C5: the click on `#about` of the sample page. -/
theorem anchorClick_pushes_history_witness :
    (anchorClickHandler sampleAnchorEnv sampleBrowserState "#about").state.history =
      { entries := ["", "#about"], index := 1 } := by
  have h := anchorClick_pushes_history sampleAnchorEnv sampleBrowserState "#about" ⟨1, 400⟩
    (by decide) rfl (by decide)
  rw [h.1]
  decide

/-- C6: a click on an in-page anchor link with href `h`.  When `h` is `#`, or
`querySelector(h)` finds no element (or rejects the selector), the handler
does not prevent the default action, requests no scroll and leaves history
and focus as they were.  When `querySelector(h)` finds an element, the
handler prevents the default action and requests one smooth scroll to
`target.top + pageYOffset - headerHeight`, with the header height read at the
click and taken as 0 when there is no `#header`. -/
theorem anchorClick_scroll {N : Type} [Add N] [Sub N] [Zero N] (env : AnchorEnv N)
    (st : BrowserState) (h : String) :
    ((h = "#" ∨ env.querySelector h = .ok none ∨ ∃ e, env.querySelector h = .error e) →
      (anchorClickHandler env st h).defaultPrevented = false ∧
      (anchorClickHandler env st h).scrollRequests = [] ∧
      (anchorClickHandler env st h).attributeWrites = [] ∧
      (anchorClickHandler env st h).state = st) ∧
    (∀ target, h ≠ "#" → env.querySelector h = .ok (some target) →
      (anchorClickHandler env st h).defaultPrevented = true ∧
      (anchorClickHandler env st h).thrown = none ∧
      (anchorClickHandler env st h).scrollRequests =
        [{ top := target.top + env.pageYOffset -
             (match env.headerOffsetHeight with
              | some height => height
              | none => 0),
           behavior := "smooth" }]) := by
  constructor
  · intro hc
    by_cases h1 : h = "#"
    · simp [anchorClickHandler, h1]
    · have hb : (h == "#") = false := by simpa using h1
      rcases hc with hc | hc | ⟨e, hc⟩
      · exact absurd hc h1
      · simp [anchorClickHandler, hb, hc]
      · simp [anchorClickHandler, hb, hc]
  · intro target hne hres
    rw [anchorClickHandler_found env st h target hne hres]
    refine ⟨rfl, rfl, ?_⟩
    cases env.headerOffsetHeight <;> rfl

/-- Witness for C6: on the sample page the click on `#about` asks for a
smooth scroll to 400 + 100 - 80 = 420, and the click on `#` does nothing. -/
theorem anchorClick_scroll_witness :
    ((anchorClickHandler sampleAnchorEnv sampleBrowserState "#about").scrollRequests.map
      (fun r => (r.top, r.behavior))) = [(420, "smooth")] ∧
    (anchorClickHandler sampleAnchorEnv sampleBrowserState "#").state = sampleBrowserState := by
  have h1 := (anchorClick_scroll sampleAnchorEnv sampleBrowserState "#about").2 ⟨1, 400⟩
    (by decide) rfl
  have h2 := (anchorClick_scroll sampleAnchorEnv sampleBrowserState "#").1 (Or.inl rfl)
  refine ⟨?_, h2.2.2.2⟩
  rw [h1.2.2]
  decide

/-! ## Theorems: initialisation -/

theorem mapM_ok {α β : Type} (g : α → β) (l : List α) :
    l.mapM (fun i => (Except.ok (g i) : Except JSError β)) = .ok (l.map g) := by
  induction l with
  | nil => rfl
  | cons a l ih =>
      rw [List.mapM_cons, ih]
      rfl

theorem initMobileNav_ok (p : Page) : ∃ l, initMobileNav p = .ok (p, l) := by
  unfold initMobileNav
  cases h1 : p.getElementById "nav-toggle" with
  | none => exact ⟨[], by simp [pure, Except.pure]⟩
  | some t =>
      cases h2 : p.getElementById "nav" with
      | none => exact ⟨[], by simp [pure, Except.pure]⟩
      | some n =>
          have hm := mapM_ok (fun i => (⟨.navLink i, "click", .navLinkClick⟩ : Listener))
            (List.range p.navLinks)
          simp only [addEventListener, Option.isNone_some, Bool.or_self, Bool.false_eq_true,
            if_false, bind, Except.bind, hm, pure, Except.pure]
          exact ⟨_, rfl⟩

theorem initFaqAccordion_ok (p : Page) : ∃ l, initFaqAccordion p = .ok (p, l) := by
  unfold initFaqAccordion
  by_cases h : p.faqQuestions = 0
  · exact ⟨[], by simp [h, pure, Except.pure]⟩
  · have hm := mapM_ok
      (fun i => ([⟨.faqQuestion i, "click", .faqClick⟩,
        ⟨.faqQuestion i, "keydown", .faqKeydown⟩] : List Listener))
      (List.range p.faqQuestions)
    have hb : (p.faqQuestions == 0) = false := by simpa using h
    simp only [hb, Bool.false_eq_true, if_false, addEventListener, bind, Except.bind, pure,
      Except.pure, hm]
    exact ⟨_, rfl⟩

theorem initSmoothScroll_ok (p : Page) : ∃ l, initSmoothScroll p = .ok (p, l) := by
  unfold initSmoothScroll
  have hm := mapM_ok (fun i => (⟨.anchor i, "click", .anchorClick⟩ : Listener))
    (List.range p.anchors)
  simp only [addEventListener, bind, Except.bind, pure, Except.pure, hm]
  exact ⟨_, rfl⟩

theorem initContactForm_ok (p : Page) : ∃ l, initContactForm p = .ok (p, l) := by
  unfold initContactForm
  cases h : p.getElementById "contact-form" with
  | none => exact ⟨[], by simp [pure, Except.pure]⟩
  | some t =>
      exact ⟨[⟨t, "submit", .formSubmit⟩],
        by simp [addEventListener, bind, Except.bind, pure, Except.pure]⟩

theorem initHeaderScroll_ok (p : Page) : ∃ p' l, initHeaderScroll p = .ok (p', l) := by
  unfold initHeaderScroll
  cases h : p.getElementById "header" with
  | none => exact ⟨p, [], by simp [pure, Except.pure]⟩
  | some t =>
      exact ⟨{ p with headerClasses := updateHeaderState p.scrollY p.headerClasses },
        [⟨.window, "scroll", .headerScroll⟩],
        by simp [addEventListener, bind, Except.bind, pure, Except.pure]⟩

/-- C7, as stated, fails for the contact form: on a page that has
`#contact-form` but none of `#name`, `#email`, `#message` inside it,
`initContactForm` still registers its submit listener. -/
theorem initContactForm_missing_field_counterexample :
    (⟨["contact-form"], 0, 0, 0, [], [], 0⟩ : Page).formFieldIds.contains "name" = false ∧
    initContactForm ⟨["contact-form"], 0, 0, 0, [], [], 0⟩ =
      .ok (⟨["contact-form"], 0, 0, 0, [], [], 0⟩,
        [{ target := .element "contact-form", type := "submit", handler := .formSubmit }]) := by
  constructor
  · decide
  · simp [initContactForm, Page.getElementById, addEventListener, bind, Except.bind, pure,
      Except.pure]

/-- C7 (amended): for every document, a component whose required element is
missing (`initMobileNav`: `nav-toggle` or `nav`; `initFaqAccordion`: any
`.faq-question`; `initContactForm`: `contact-form`; `initHeaderScroll`:
`header`) registers no listener and leaves the page as it was; no setup
function raises an error, and `init` runs all five: its listeners are those of
the five setup functions, in order.  The controls inside the form are not
looked at during setup. -/
theorem init_missing_elements (p : Page) :
    ((p.getElementById "nav-toggle" = none ∨ p.getElementById "nav" = none) →
      initMobileNav p = .ok (p, [])) ∧
    (p.faqQuestions = 0 → initFaqAccordion p = .ok (p, [])) ∧
    (p.getElementById "contact-form" = none → initContactForm p = .ok (p, [])) ∧
    (p.getElementById "header" = none → initHeaderScroll p = .ok (p, [])) ∧
    (∀ ids, initContactForm { p with formFieldIds := ids } =
      Except.map (fun r => ({ r.1 with formFieldIds := ids }, r.2)) (initContactForm p)) ∧
    ∃ l1 l2 l3 l4 l5 p',
      initMobileNav p = .ok (p, l1) ∧ initFaqAccordion p = .ok (p, l2) ∧
      initSmoothScroll p = .ok (p, l3) ∧ initContactForm p = .ok (p, l4) ∧
      initHeaderScroll p = .ok (p', l5) ∧
      init p = .ok (p', l1 ++ l2 ++ l3 ++ l4 ++ l5) := by
  refine ⟨?_, ?_, ?_, ?_, ?_, ?_⟩
  · rintro (h | h)
    · simp [initMobileNav, h, pure, Except.pure]
    · simp [initMobileNav, h, pure, Except.pure]
  · intro h; simp [initFaqAccordion, h, pure, Except.pure]
  · intro h; simp [initContactForm, h, pure, Except.pure]
  · intro h; simp [initHeaderScroll, h, pure, Except.pure]
  · intro ids
    unfold initContactForm
    have e : ({ p with formFieldIds := ids } : Page).getElementById "contact-form" =
        p.getElementById "contact-form" := rfl
    rw [e]
    cases h : p.getElementById "contact-form" with
    | none => simp [Except.map, pure, Except.pure, Functor.map]
    | some t =>
        simp [addEventListener, bind, Except.bind, pure, Except.pure, Except.map, Functor.map]
  · obtain ⟨l1, h1⟩ := initMobileNav_ok p
    obtain ⟨l2, h2⟩ := initFaqAccordion_ok p
    obtain ⟨l3, h3⟩ := initSmoothScroll_ok p
    obtain ⟨l4, h4⟩ := initContactForm_ok p
    obtain ⟨p', l5, h5⟩ := initHeaderScroll_ok p
    refine ⟨l1, l2, l3, l4, l5, p', h1, h2, h3, h4, h5, ?_⟩
    simp only [init, h1, h2, h3, h4, h5, bind, Except.bind, pure, Except.pure]

/-- Witness for C7: a page with only a header and two anchors; the
navigation, the accordion and the form register nothing, the other two
components do. -/
theorem init_missing_elements_witness :
    initMobileNav ⟨["header"], 3, 0, 2, [], [], 0⟩ = .ok (⟨["header"], 3, 0, 2, [], [], 0⟩, []) ∧
    initFaqAccordion ⟨["header"], 3, 0, 2, [], [], 0⟩ =
      .ok (⟨["header"], 3, 0, 2, [], [], 0⟩, []) ∧
    initContactForm ⟨["header"], 3, 0, 2, [], [], 0⟩ =
      .ok (⟨["header"], 3, 0, 2, [], [], 0⟩, []) := by
  have h := init_missing_elements ⟨["header"], 3, 0, 2, [], [], 0⟩
  exact ⟨h.1 (Or.inl (by decide)), h.2.1 rfl, h.2.2.1 (by decide)⟩

end Temlett
